import Mathlib

/-!
Verification of the UCX InfiniBand-CM active-message endpoint
(`src/uct/ib/cm/cm_ep.c`) against its natural-language specification.

The file shallow-embeds the endpoint operations as pure Lean functions over
an explicit interface-state record.  External calls made by the code
(`ucs_malloc`, the caller's pack callback, `ib_cm_create_id`,
`ib_cm_send_sidr_req`) are parameters of the embedding, supplied through an
environment record, and every run additionally produces an event trace of
the resource-affecting actions (lock enter/leave, buffer alloc/free,
transaction create/destroy, submission) so that rollback and ordering
properties can be stated.
-/

namespace UcxCm

/-- The UCS status codes used by `cm_ep.c` (from `ucs/type/status.h`). -/
inductive ucs_status_t where
  | UCS_OK
  | UCS_INPROGRESS
  | UCS_ERR_NO_RESOURCE
  | UCS_ERR_NO_MEMORY
  | UCS_ERR_IO_ERROR
  | UCS_ERR_BUSY
deriving DecidableEq, Repr

/-- Private-data capacity of an IB CM SIDR request, from `<infiniband/cm.h>`
(a hard constant of the underlying CM implementation). -/
def IB_CM_SIDR_REQ_PRIVATE_DATA_SIZE : Nat := 216

/-- `IBV_RATE_MAX` from `<infiniband/verbs.h>`: the "maximum representable
rate" member of `enum ibv_rate`, whose value is 0. -/
def IBV_RATE_MAX : Nat := 0

/-- `htons`: 16-bit host-to-network byte swap (little-endian host). -/
def htons (x : Nat) : Nat := (x % 256) * 256 + (x / 256) % 256

/-- `ntohs`: 16-bit network-to-host byte swap, identical to `htons`. -/
def ntohs (x : Nat) : Nat := htons x

/-- `htonl`: 32-bit host-to-network byte swap (little-endian host). -/
def htonl (x : Nat) : Nat :=
  (x % 256) * 16777216 + ((x / 256) % 256) * 65536 +
  ((x / 65536) % 256) * 256 + (x / 16777216) % 256

/-- Modelled from the spec: `uct_cm_hdr_t` is declared in `cm.h`, which is
not under `src/`.  The spec's wire format is
`[active_message_id: 1 byte][payload_length: size field][payload]`; the
length field is modelled as a single byte, so `sizeof(uct_cm_hdr_t) = 2`. -/
structure uct_cm_hdr where
  am_id : Nat
  length : Nat
deriving DecidableEq, Repr

/-- Modelled from the spec: size of the frame header (`sizeof(uct_cm_hdr_t)`,
`cm.h` not under `src/`): one byte of am_id plus the length field. -/
def sizeof_uct_cm_hdr : Nat := 2

/-- The byte content of the staging buffer after the header is filled in:
the header bytes followed by the payload written by the pack callback at
`hdr + 1` (just past the header). -/
def frame_bytes (hdr : uct_cm_hdr) (payload : List Nat) : List Nat :=
  [hdr.am_id % 256, hdr.length % 256] ++ payload

/-- `uct_ib_address_t`: device-level destination address (gid + lid). -/
structure uct_ib_address where
  gid : Nat
  lid : Nat
deriving DecidableEq, Repr

/-- A CM endpoint: destination device address and service id, immutable
after construction (`uct_cm_ep_t`).  `ep_id` models the endpoint's identity
(its address in C), used by the pending queue's ownership back-reference. -/
structure uct_cm_ep where
  ep_id : Nat
  dest_addr : uct_ib_address
  dest_service_id : Nat
deriving DecidableEq, Repr

/-- The local port attributes consumed by the path builder
(`uct_ib_iface_port_attr`): lid and active MTU. -/
structure uct_ib_port_attr where
  lid : Nat
  active_mtu : Nat
deriving DecidableEq, Repr

/-- A pending request (`uct_pending_req_t`): an opaque caller request plus
the private field in which `uct_cm_ep_pending_add` records the owning
endpoint (`uct_cm_pending_req_priv_t.ep`). -/
structure uct_pending_req where
  req_id : Nat
  priv_ep : Option Nat
deriving DecidableEq, Repr

/-- Interface-shared admission state (`uct_cm_iface_t`): capacity bound,
outstanding counter, the fixed-capacity outstanding table (modelled as a
total map from slot index to transaction id), the pending FIFO, the SIDR
configuration, and the local attributes used by the path builder. -/
structure uct_cm_iface where
  max_outstanding : Nat
  num_outstanding : Nat
  outstanding : Nat → Nat
  notify_q : List uct_pending_req
  timeout_ms : Nat
  retry_count : Nat
  gid : Nat
  pkey_value : Nat
  sl : Nat
  port : uct_ib_port_attr

/-- `struct ibv_sa_path_rec` as filled by `uct_cm_ep_fill_path_rec`. -/
structure ibv_sa_path_rec where
  dgid : Nat
  sgid : Nat
  dlid : Nat
  slid : Nat
  raw_traffic : Nat
  flow_label : Nat
  hop_limit : Nat
  traffic_class : Nat
  reversible : Nat
  numb_path : Nat
  pkey : Nat
  sl : Nat
  mtu_selector : Nat
  mtu : Nat
  rate_selector : Nat
  rate : Nat
  packet_life_time_selector : Nat
  packet_life_time : Nat
  preference : Nat
deriving DecidableEq, Repr

/-- `uct_cm_ep_fill_path_rec`: fills the SA path record from the endpoint's
destination address and the interface's local port attributes, and returns
a status (the C function unconditionally returns `UCS_OK`). -/
def uct_cm_ep_fill_path_rec (ep : uct_cm_ep) (iface : uct_cm_iface) :
    ucs_status_t × ibv_sa_path_rec :=
  (ucs_status_t.UCS_OK,
   { dgid := ep.dest_addr.gid
   , sgid := iface.gid
   , dlid := htons ep.dest_addr.lid
   , slid := htons iface.port.lid
   , raw_traffic := 0
   , flow_label := 0
   , hop_limit := 0
   , traffic_class := 0
   , reversible := htonl 1
   , numb_path := 0
   , pkey := ntohs iface.pkey_value
   , sl := iface.sl
   , mtu_selector := 2
   , mtu := iface.port.active_mtu
   , rate_selector := 2
   , rate := IBV_RATE_MAX
   , packet_life_time_selector := 2
   , packet_life_time := 0
   , preference := 0 })

/-- `struct ib_cm_sidr_req_param` as filled by `uct_cm_ep_am_bcopy` before
the call to `ib_cm_send_sidr_req`. -/
structure ib_cm_sidr_req_param where
  path : ibv_sa_path_rec
  service_id : Nat
  timeout_ms : Nat
  private_data : List Nat
  private_data_len : Nat
  max_cm_retries : Nat
deriving DecidableEq, Repr

/-- The resource-affecting events of one `uct_cm_ep_am_bcopy` run, in
program order: lock enter/leave (`uct_cm_enter`/`uct_cm_leave`), staging
buffer allocation/free (`ucs_malloc`/`ucs_free`), pack-callback invocation,
transaction create/destroy (`ib_cm_create_id`/`ib_cm_destroy_id`), and the
submission call (`ib_cm_send_sidr_req`, carrying `private_data_len`). -/
inductive CmEvent where
  | enter
  | leave
  | malloc_buf
  | free_buf
  | pack_called
  | create_id (id : Nat)
  | destroy_id (id : Nat)
  | send_sidr (private_data_len : Nat)
deriving DecidableEq, Repr

/-- The external world of one `uct_cm_ep_am_bcopy` call: whether
`ucs_malloc` succeeds, the caller's pack callback (a state transformer on
the caller's state `σ` that also yields the payload bytes it writes at
`hdr + 1`; the C callback's return value is the byte count, here the list
length), the result of `ib_cm_create_id` (`some id` or failure), and
whether `ib_cm_send_sidr_req` succeeds. -/
structure CmEnv (σ : Type) where
  malloc_ok : Bool
  pack_cb : σ → σ × List Nat
  create_id_result : Option Nat
  send_ok : Bool

/-- Everything one `uct_cm_ep_am_bcopy` run produces: the `ssize_t` result
(payload length or error status), the interface state after the call, the
caller's state after any pack-callback invocation, the event trace, and the
SIDR request handed to `ib_cm_send_sidr_req` (if that call was reached). -/
structure BcopyOut (σ : Type) where
  result : Except ucs_status_t Nat
  iface : uct_cm_iface
  caller : σ
  events : List CmEvent
  submitted : Option ib_cm_sidr_req_param

/-- `uct_cm_ep_am_bcopy`, line for line: admission check under the lock;
staging-buffer allocation; pack callback into `hdr + 1`; header fill and
`total_len` computation; path build; SIDR parameter fill; transaction
creation; submission; then either registration of the transaction in the
outstanding table and success, or the rollback chain of the `err_*`
labels.  (The `UCT_CHECK_AM_ID` contract check and the statistics/tracing
macros are outside this core and carry no admission-relevant behavior.) -/
def uct_cm_ep_am_bcopy {σ : Type} (env : CmEnv σ) (iface : uct_cm_iface)
    (ep : uct_cm_ep) (am_id : Nat) (caller : σ) : BcopyOut σ :=
  if iface.num_outstanding ≥ iface.max_outstanding then
    { result := Except.error ucs_status_t.UCS_ERR_NO_RESOURCE
    , iface := iface, caller := caller
    , events := [CmEvent.enter, CmEvent.leave], submitted := none }
  else if env.malloc_ok = false then
    { result := Except.error ucs_status_t.UCS_ERR_NO_MEMORY
    , iface := iface, caller := caller
    , events := [CmEvent.enter, CmEvent.leave], submitted := none }
  else
    let caller' := (env.pack_cb caller).1
    let payload := (env.pack_cb caller).2
    let payload_len := payload.length
    let hdr : uct_cm_hdr := { am_id := am_id, length := payload_len }
    let total_len := sizeof_uct_cm_hdr + payload_len
    let fill := uct_cm_ep_fill_path_rec ep iface
    if fill.1 ≠ ucs_status_t.UCS_OK then
      { result := Except.error fill.1
      , iface := iface, caller := caller'
      , events := [CmEvent.enter, CmEvent.malloc_buf, CmEvent.pack_called,
                   CmEvent.free_buf, CmEvent.leave]
      , submitted := none }
    else
      let req : ib_cm_sidr_req_param :=
        { path := fill.2
        , service_id := ep.dest_service_id
        , timeout_ms := iface.timeout_ms
        , private_data := frame_bytes hdr payload
        , private_data_len := total_len
        , max_cm_retries := iface.retry_count }
      match env.create_id_result with
      | none =>
        { result := Except.error ucs_status_t.UCS_ERR_IO_ERROR
        , iface := iface, caller := caller'
        , events := [CmEvent.enter, CmEvent.malloc_buf, CmEvent.pack_called,
                     CmEvent.free_buf, CmEvent.leave]
        , submitted := none }
      | some id =>
        if env.send_ok then
          { result := Except.ok payload_len
          , iface := { iface with
              outstanding := fun i =>
                if i = iface.num_outstanding then id else iface.outstanding i
              , num_outstanding := iface.num_outstanding + 1 }
          , caller := caller'
          , events := [CmEvent.enter, CmEvent.malloc_buf, CmEvent.pack_called,
                       CmEvent.create_id id, CmEvent.send_sidr total_len,
                       CmEvent.leave, CmEvent.free_buf]
          , submitted := some req }
        else
          { result := Except.error ucs_status_t.UCS_ERR_IO_ERROR
          , iface := iface, caller := caller'
          , events := [CmEvent.enter, CmEvent.malloc_buf, CmEvent.pack_called,
                       CmEvent.create_id id, CmEvent.send_sidr total_len,
                       CmEvent.destroy_id id, CmEvent.free_buf, CmEvent.leave]
          , submitted := some req }

/-- `uct_cm_ep_pending_add`: under the lock, re-check admission; if capacity
is available return `UCS_ERR_BUSY` without enqueuing; otherwise record the
owning endpoint in the request's private field and push the request onto
the interface's notification FIFO (`uct_pending_req_push`, modelled from
the spec's "append the request to the FIFO" as a tail append) and return
`UCS_OK`. -/
def uct_cm_ep_pending_add (iface : uct_cm_iface) (ep : uct_cm_ep)
    (req : uct_pending_req) : ucs_status_t × uct_cm_iface :=
  if iface.num_outstanding < iface.max_outstanding then
    (ucs_status_t.UCS_ERR_BUSY, iface)
  else
    (ucs_status_t.UCS_OK,
     { iface with notify_q := iface.notify_q ++ [{ req with priv_ep := some ep.ep_id }] })

/-- Modelled from the spec: `uct_pending_queue_purge` is a macro of the uct
base headers, not under `src/`.  Per the spec it "removes every
pending-queue entry owned by this Endpoint, invoking `cleanup_callback`
once per removed entry, preserving relative order of the remaining
entries": given the ownership condition it returns the remaining queue and
the removed entries in the order the callback is invoked on them. -/
def uct_pending_queue_purge (cond : uct_pending_req → Bool)
    (q : List uct_pending_req) : List uct_pending_req × List uct_pending_req :=
  (q.filter (fun r => ! cond r), q.filter cond)

/-- `uct_cm_ep_pending_purge`: purge from the interface FIFO every entry
whose recorded owning endpoint is this endpoint (`priv->ep == ep`).
Returns the interface with the purged queue and the list of removed
entries, each of which receives exactly one cleanup-callback invocation. -/
def uct_cm_ep_pending_purge (iface : uct_cm_iface) (ep : uct_cm_ep) :
    uct_cm_iface × List uct_pending_req :=
  let p := uct_pending_queue_purge (fun r => decide (r.priv_ep = some ep.ep_id))
             iface.notify_q
  ({ iface with notify_q := p.1 }, p.2)

/-- Modelled from the spec: `uct_cm_iface_flush_do` lives in `cm_iface.c`,
which is not under `src/`.  Per the spec, the interface-level flush check
"returns `complete` iff no outstanding transactions remain system-wide for
the interface at the instant checked, `in_progress` otherwise". -/
def uct_cm_iface_flush_do (iface : uct_cm_iface) : ucs_status_t :=
  if iface.num_outstanding = 0 then ucs_status_t.UCS_OK
  else ucs_status_t.UCS_INPROGRESS

/-- The endpoint statistics counters touched by `uct_cm_ep_flush`
(`UCT_TL_EP_STAT_FLUSH` / `UCT_TL_EP_STAT_FLUSH_WAIT`). -/
structure uct_ep_stats where
  flush_cnt : Nat
  flush_wait_cnt : Nat
deriving DecidableEq, Repr

/-- `uct_cm_ep_flush`: delegate to the interface-level flush check, then
record the flush or flush-wait statistic according to the status, and
return the status unchanged.  The interface state is not modified. -/
def uct_cm_ep_flush (iface : uct_cm_iface) (stats : uct_ep_stats) :
    ucs_status_t × uct_cm_iface × uct_ep_stats :=
  let status := uct_cm_iface_flush_do iface
  if status = ucs_status_t.UCS_OK then
    (status, iface, { stats with flush_cnt := stats.flush_cnt + 1 })
  else
    (status, iface, { stats with flush_wait_cnt := stats.flush_wait_cnt + 1 })

/-- The admission invariant of the interface-shared state:
`0 ≤ num_outstanding ≤ max_outstanding` (the lower bound is inherent to
`Nat`). -/
def AdmissionInv (iface : uct_cm_iface) : Prop :=
  iface.num_outstanding ≤ iface.max_outstanding

instance (iface : uct_cm_iface) : Decidable (AdmissionInv iface) := by
  unfold AdmissionInv; infer_instance

/-! ## Case analysis of `uct_cm_ep_am_bcopy`

A shared dispatch lemma: every run of `uct_cm_ep_am_bcopy` is exactly one
of the five outcomes of the C control flow (admission failure, allocation
failure, `ib_cm_create_id` failure, `ib_cm_send_sidr_req` failure,
success).  The branch guarded by `uct_cm_ep_fill_path_rec`'s status is dead
because that function unconditionally returns `UCS_OK`. -/

/-- Abbreviation for the request record built on the submission paths. -/
def built_req {σ : Type} (env : CmEnv σ) (iface : uct_cm_iface)
    (ep : uct_cm_ep) (am_id : Nat) (caller : σ) : ib_cm_sidr_req_param :=
  { path := (uct_cm_ep_fill_path_rec ep iface).2
  , service_id := ep.dest_service_id
  , timeout_ms := iface.timeout_ms
  , private_data := frame_bytes { am_id := am_id, length := (env.pack_cb caller).2.length }
      (env.pack_cb caller).2
  , private_data_len := sizeof_uct_cm_hdr + (env.pack_cb caller).2.length
  , max_cm_retries := iface.retry_count }

theorem am_bcopy_cases {σ : Type} (env : CmEnv σ) (iface : uct_cm_iface)
    (ep : uct_cm_ep) (am_id : Nat) (caller : σ) :
    (iface.num_outstanding ≥ iface.max_outstanding ∧
      uct_cm_ep_am_bcopy env iface ep am_id caller =
      { result := Except.error ucs_status_t.UCS_ERR_NO_RESOURCE
      , iface := iface, caller := caller
      , events := [CmEvent.enter, CmEvent.leave], submitted := none })
  ∨ (iface.num_outstanding < iface.max_outstanding ∧ env.malloc_ok = false ∧
      uct_cm_ep_am_bcopy env iface ep am_id caller =
      { result := Except.error ucs_status_t.UCS_ERR_NO_MEMORY
      , iface := iface, caller := caller
      , events := [CmEvent.enter, CmEvent.leave], submitted := none })
  ∨ (iface.num_outstanding < iface.max_outstanding ∧ env.malloc_ok = true ∧
      env.create_id_result = none ∧
      uct_cm_ep_am_bcopy env iface ep am_id caller =
      { result := Except.error ucs_status_t.UCS_ERR_IO_ERROR
      , iface := iface, caller := (env.pack_cb caller).1
      , events := [CmEvent.enter, CmEvent.malloc_buf, CmEvent.pack_called,
                   CmEvent.free_buf, CmEvent.leave]
      , submitted := none })
  ∨ (∃ id, iface.num_outstanding < iface.max_outstanding ∧ env.malloc_ok = true ∧
      env.create_id_result = some id ∧ env.send_ok = false ∧
      uct_cm_ep_am_bcopy env iface ep am_id caller =
      { result := Except.error ucs_status_t.UCS_ERR_IO_ERROR
      , iface := iface, caller := (env.pack_cb caller).1
      , events := [CmEvent.enter, CmEvent.malloc_buf, CmEvent.pack_called,
                   CmEvent.create_id id,
                   CmEvent.send_sidr (sizeof_uct_cm_hdr + (env.pack_cb caller).2.length),
                   CmEvent.destroy_id id, CmEvent.free_buf, CmEvent.leave]
      , submitted := some (built_req env iface ep am_id caller) })
  ∨ (∃ id, iface.num_outstanding < iface.max_outstanding ∧ env.malloc_ok = true ∧
      env.create_id_result = some id ∧ env.send_ok = true ∧
      uct_cm_ep_am_bcopy env iface ep am_id caller =
      { result := Except.ok (env.pack_cb caller).2.length
      , iface := { iface with
          outstanding := fun i =>
            if i = iface.num_outstanding then id else iface.outstanding i
          , num_outstanding := iface.num_outstanding + 1 }
      , caller := (env.pack_cb caller).1
      , events := [CmEvent.enter, CmEvent.malloc_buf, CmEvent.pack_called,
                   CmEvent.create_id id,
                   CmEvent.send_sidr (sizeof_uct_cm_hdr + (env.pack_cb caller).2.length),
                   CmEvent.leave, CmEvent.free_buf]
      , submitted := some (built_req env iface ep am_id caller) }) := by
  rcases lt_or_ge iface.num_outstanding iface.max_outstanding with h1 | h1
  · cases hm : env.malloc_ok with
    | false =>
        right; left
        refine ⟨h1, rfl, ?_⟩
        simp [uct_cm_ep_am_bcopy, not_le.mpr h1, hm]
    | true =>
        cases hc : env.create_id_result with
        | none =>
            right; right; left
            refine ⟨h1, rfl, rfl, ?_⟩
            simp [uct_cm_ep_am_bcopy, not_le.mpr h1, hm, hc,
                  uct_cm_ep_fill_path_rec]
        | some id =>
            cases hs : env.send_ok with
            | false =>
                right; right; right; left
                refine ⟨id, h1, rfl, rfl, rfl, ?_⟩
                simp [uct_cm_ep_am_bcopy, not_le.mpr h1, hm, hc, hs,
                      uct_cm_ep_fill_path_rec, built_req, frame_bytes]
            | true =>
                right; right; right; right
                refine ⟨id, h1, rfl, rfl, rfl, ?_⟩
                simp [uct_cm_ep_am_bcopy, not_le.mpr h1, hm, hc, hs,
                      uct_cm_ep_fill_path_rec, built_req, frame_bytes]
  · left
    refine ⟨h1, ?_⟩
    simp [uct_cm_ep_am_bcopy, h1]

/-! ## Concrete fixtures used by the witness theorems -/

/-- A concrete endpoint. -/
def epA : uct_cm_ep :=
  { ep_id := 1, dest_addr := { gid := 10, lid := 20 }, dest_service_id := 7 }

/-- A second endpoint on the same interface. -/
def epB : uct_cm_ep :=
  { ep_id := 2, dest_addr := { gid := 11, lid := 21 }, dest_service_id := 8 }

/-- A concrete interface with capacity 1 and no outstanding transactions. -/
def ifaceA : uct_cm_iface :=
  { max_outstanding := 1, num_outstanding := 0, outstanding := fun _ => 0
  , notify_q := [], timeout_ms := 300, retry_count := 4
  , gid := 5, pkey_value := 60000, sl := 0
  , port := { lid := 30, active_mtu := 3 } }

/-- `ifaceA` with its single admission slot taken. -/
def ifaceFull : uct_cm_iface := { ifaceA with num_outstanding := 1 }

/-- An environment in which every external call succeeds; the pack callback
increments the caller state (an observable side effect) and writes a
32-byte payload. -/
def envA : CmEnv Nat :=
  { malloc_ok := true
  , pack_cb := fun s => (s + 1, List.replicate 32 9)
  , create_id_result := some 42
  , send_ok := true }

/-- An environment in which `ib_cm_send_sidr_req` fails (4-byte payload). -/
def envSendFail : CmEnv Nat :=
  { malloc_ok := true
  , pack_cb := fun s => (s + 1, List.replicate 4 2)
  , create_id_result := some 9
  , send_ok := false }

/-- The first send of the capacity-1 scenario. -/
def sendA1 : BcopyOut Nat := uct_cm_ep_am_bcopy envA ifaceA epA 3 0

/-- A concrete pending request (owner not yet recorded). -/
def reqA : uct_pending_req := { req_id := 100, priv_ep := none }

/-- Concrete endpoint statistics. -/
def statsA : uct_ep_stats := { flush_cnt := 0, flush_wait_cnt := 0 }

/-! ## C2 — admission rejection acquires nothing -/

/-- C2: a call to `uct_cm_ep_am_bcopy` on an interface with
`num_outstanding ≥ max_outstanding` fails with `UCS_ERR_NO_RESOURCE`,
leaves the interface state (counter, outstanding table, pending queue)
unchanged, performs no external action other than taking and releasing the
lock (no allocation, no transaction creation, no submission), and leaves
the caller's state untouched. -/
theorem C2_no_resource_rejection {σ : Type} (env : CmEnv σ)
    (iface : uct_cm_iface) (ep : uct_cm_ep) (am_id : Nat) (caller : σ)
    (h : iface.num_outstanding ≥ iface.max_outstanding) :
    (uct_cm_ep_am_bcopy env iface ep am_id caller).result
      = Except.error ucs_status_t.UCS_ERR_NO_RESOURCE
    ∧ (uct_cm_ep_am_bcopy env iface ep am_id caller).iface = iface
    ∧ (uct_cm_ep_am_bcopy env iface ep am_id caller).events
      = [CmEvent.enter, CmEvent.leave]
    ∧ (uct_cm_ep_am_bcopy env iface ep am_id caller).submitted = none
    ∧ (uct_cm_ep_am_bcopy env iface ep am_id caller).caller = caller := by
  have he : uct_cm_ep_am_bcopy env iface ep am_id caller =
      { result := Except.error ucs_status_t.UCS_ERR_NO_RESOURCE
      , iface := iface, caller := caller
      , events := [CmEvent.enter, CmEvent.leave], submitted := none } := by
    simp [uct_cm_ep_am_bcopy, h]
  rw [he]
  exact ⟨rfl, rfl, rfl, rfl, rfl⟩

/-- C2 witness, the spec's capacity-1 scenario: with `max_outstanding = 1`,
send #1 (32-byte payload, am_id 3) succeeds and returns 32; send #2 issued
immediately after, before any completion, returns `UCS_ERR_NO_RESOURCE`
with the interface state unchanged. -/
theorem C2_no_resource_rejection_witness :
    sendA1.result = Except.ok 32
    ∧ sendA1.iface.num_outstanding ≥ sendA1.iface.max_outstanding
    ∧ (uct_cm_ep_am_bcopy envA sendA1.iface epA 3 sendA1.caller).result
      = Except.error ucs_status_t.UCS_ERR_NO_RESOURCE
    ∧ (uct_cm_ep_am_bcopy envA sendA1.iface epA 3 sendA1.caller).iface
      = sendA1.iface
    ∧ (uct_cm_ep_am_bcopy envA sendA1.iface epA 3 sendA1.caller).submitted
      = none :=
  ⟨by rfl, by decide,
   (C2_no_resource_rejection envA sendA1.iface epA 3 sendA1.caller (by decide)).1,
   (C2_no_resource_rejection envA sendA1.iface epA 3 sendA1.caller (by decide)).2.1,
   (C2_no_resource_rejection envA sendA1.iface epA 3 sendA1.caller (by decide)).2.2.2.1⟩

/-! ## C3 — success path postcondition -/

/-- C3: a successful `uct_cm_ep_am_bcopy` returns exactly the value the
pack callback returned (the payload length, not the header-inclusive
total: the submitted private-data length is `sizeof_uct_cm_hdr`, i.e. the
header, larger), stores the new transaction handle at index
`num_outstanding` of the outstanding table, increments `num_outstanding` by
exactly one, and both allocates and frees the staging buffer exactly
once. -/
theorem C3_success_postcondition {σ : Type} (env : CmEnv σ)
    (iface : uct_cm_iface) (ep : uct_cm_ep) (am_id : Nat) (caller : σ)
    (n : Nat)
    (h : (uct_cm_ep_am_bcopy env iface ep am_id caller).result = Except.ok n) :
    n = (env.pack_cb caller).2.length
    ∧ (uct_cm_ep_am_bcopy env iface ep am_id caller).iface.num_outstanding
      = iface.num_outstanding + 1
    ∧ (∃ id, env.create_id_result = some id
        ∧ (uct_cm_ep_am_bcopy env iface ep am_id caller).iface.outstanding
            iface.num_outstanding = id)
    ∧ (uct_cm_ep_am_bcopy env iface ep am_id caller).events.count
        CmEvent.free_buf = 1
    ∧ (uct_cm_ep_am_bcopy env iface ep am_id caller).events.count
        CmEvent.malloc_buf = 1
    ∧ ((uct_cm_ep_am_bcopy env iface ep am_id caller).submitted.map
        (fun q => q.private_data_len)) = some (sizeof_uct_cm_hdr + n) := by
  rcases am_bcopy_cases env iface ep am_id caller with
    ⟨_, he⟩ | ⟨_, _, he⟩ | ⟨_, _, _, he⟩ | ⟨id, _, _, _, _, he⟩ |
    ⟨id, _, _, hc, _, he⟩
  · rw [he] at h; exact absurd h (by simp)
  · rw [he] at h; exact absurd h (by simp)
  · rw [he] at h; exact absurd h (by simp)
  · rw [he] at h; exact absurd h (by simp)
  · rw [he] at h
    have hn : n = (env.pack_cb caller).2.length := by
      simpa using h.symm
    subst hn
    rw [he]
    refine ⟨rfl, rfl, ⟨id, hc, by simp⟩, by rfl, by rfl, by
      simp [built_req]⟩

/-- C3 witness: the concrete capacity-1 scenario send returns 32 (the pack
callback's value), increments `num_outstanding` from 0 to 1, stores handle
42 at slot 0, frees the staging buffer, and submitted private-data length
34 = 2 + 32. -/
theorem C3_success_postcondition_witness :
    (32 : Nat) = (envA.pack_cb 0).2.length
    ∧ sendA1.iface.num_outstanding = ifaceA.num_outstanding + 1
    ∧ (∃ id, envA.create_id_result = some id
        ∧ sendA1.iface.outstanding ifaceA.num_outstanding = id)
    ∧ sendA1.events.count CmEvent.free_buf = 1
    ∧ sendA1.events.count CmEvent.malloc_buf = 1
    ∧ (sendA1.submitted.map (fun q => q.private_data_len))
      = some (sizeof_uct_cm_hdr + 32) :=
  C3_success_postcondition envA ifaceA epA 3 0 32 (by rfl)

/-! ## C4 — backpressure registration inversion -/

/-- C4: `uct_cm_ep_pending_add` has exactly two outcomes: with capacity
available (`num_outstanding < max_outstanding`) it enqueues nothing and
returns the retry-now signal `UCS_ERR_BUSY`, leaving the interface
unchanged; with capacity exhausted it records the owning endpoint in the
request's private field, appends the request to the tail of the FIFO, and
returns `UCS_OK` (enqueued). -/
theorem C4_pending_add_outcomes (iface : uct_cm_iface) (ep : uct_cm_ep)
    (req : uct_pending_req) :
    (iface.num_outstanding < iface.max_outstanding →
      uct_cm_ep_pending_add iface ep req = (ucs_status_t.UCS_ERR_BUSY, iface))
    ∧ (iface.num_outstanding ≥ iface.max_outstanding →
      uct_cm_ep_pending_add iface ep req =
        (ucs_status_t.UCS_OK,
         { iface with notify_q :=
             iface.notify_q ++ [{ req with priv_ep := some ep.ep_id }] }))
    ∧ ((uct_cm_ep_pending_add iface ep req).1 = ucs_status_t.UCS_ERR_BUSY
       ∨ (uct_cm_ep_pending_add iface ep req).1 = ucs_status_t.UCS_OK) := by
  refine ⟨fun h => by simp [uct_cm_ep_pending_add, h],
          fun h => by simp [uct_cm_ep_pending_add, not_lt.mpr h],
          ?_⟩
  unfold uct_cm_ep_pending_add
  split
  · exact Or.inl rfl
  · exact Or.inr rfl

/-- C4 witness: on the capacity-1 interface with a free slot,
registration returns `UCS_ERR_BUSY` and enqueues nothing; on the full
interface it returns `UCS_OK` and the FIFO gains the request tagged with
the owning endpoint. -/
theorem C4_pending_add_outcomes_witness :
    uct_cm_ep_pending_add ifaceA epA reqA = (ucs_status_t.UCS_ERR_BUSY, ifaceA)
    ∧ uct_cm_ep_pending_add ifaceFull epA reqA =
        (ucs_status_t.UCS_OK,
         { ifaceFull with notify_q :=
             ifaceFull.notify_q ++ [{ reqA with priv_ep := some epA.ep_id }] }) :=
  ⟨(C4_pending_add_outcomes ifaceA epA reqA).1 (by decide),
   (C4_pending_add_outcomes ifaceFull epA reqA).2.1 (by decide)⟩

/-! ## C5 — selective purge of the pending queue -/

/-- C5: `uct_cm_ep_pending_purge` removes from the interface FIFO exactly
the entries whose recorded owning endpoint is the purged endpoint; the
returned removal list (the entries handed to the cleanup callback, in
order) contains each owned entry exactly as often as it occurs in the
queue and holds no entry of another owner; the remaining queue is the
subsequence of entries of other owners, in their original relative
order. -/
theorem C5_pending_purge (iface : uct_cm_iface) (ep : uct_cm_ep) :
    (uct_cm_ep_pending_purge iface ep).1.notify_q
      = iface.notify_q.filter (fun r => ! decide (r.priv_ep = some ep.ep_id))
    ∧ (uct_cm_ep_pending_purge iface ep).2
      = iface.notify_q.filter (fun r => decide (r.priv_ep = some ep.ep_id))
    ∧ List.Sublist (uct_cm_ep_pending_purge iface ep).1.notify_q iface.notify_q
    ∧ (∀ r : uct_pending_req,
        ((uct_cm_ep_pending_purge iface ep).2.count r
          = if r.priv_ep = some ep.ep_id then iface.notify_q.count r else 0)
        ∧ ((uct_cm_ep_pending_purge iface ep).1.notify_q.count r
          = if r.priv_ep = some ep.ep_id then 0 else iface.notify_q.count r)) := by
  refine ⟨rfl, rfl, List.filter_sublist _, fun r => ⟨?_, ?_⟩⟩
  · by_cases hr : r.priv_ep = some ep.ep_id
    · simp [uct_cm_ep_pending_purge, uct_pending_queue_purge, hr,
            List.count_filter]
    · simp only [uct_cm_ep_pending_purge, uct_pending_queue_purge, if_neg hr]
      rw [List.count_eq_zero]
      intro hmem
      exact hr (by simpa using (List.mem_filter.mp hmem).2)
  · by_cases hr : r.priv_ep = some ep.ep_id
    · simp only [uct_cm_ep_pending_purge, uct_pending_queue_purge, if_pos hr]
      rw [List.count_eq_zero]
      intro hmem
      have := (List.mem_filter.mp hmem).2
      simp [hr] at this
    · simp [uct_cm_ep_pending_purge, uct_pending_queue_purge, hr,
            List.count_filter]

/-! ## C6 — path-descriptor determinism and fixed policy -/

/-- C6: the path-descriptor builder is a pure function of the endpoint's
destination address and the interface's local attributes — repeated calls
on the same inputs produce bit-for-bit identical descriptors — and every
descriptor it builds is marked reversible (the nonzero network-order
encoding of 1), requests a single path (`numb_path = 0`, no multipath),
uses the "equal" selector (2) for MTU, rate and packet lifetime, sets the
rate to `IBV_RATE_MAX`, zeroes the QoS fields (flow label, traffic class,
hop limit), and sets path preference 0 (first returned path). -/
theorem C6_path_rec_policy (ep : uct_cm_ep) (iface : uct_cm_iface) :
    uct_cm_ep_fill_path_rec ep iface = uct_cm_ep_fill_path_rec ep iface
    ∧ (uct_cm_ep_fill_path_rec ep iface).1 = ucs_status_t.UCS_OK
    ∧ (uct_cm_ep_fill_path_rec ep iface).2.reversible = htonl 1
    ∧ htonl 1 ≠ 0
    ∧ (uct_cm_ep_fill_path_rec ep iface).2.numb_path = 0
    ∧ (uct_cm_ep_fill_path_rec ep iface).2.mtu_selector = 2
    ∧ (uct_cm_ep_fill_path_rec ep iface).2.rate_selector = 2
    ∧ (uct_cm_ep_fill_path_rec ep iface).2.packet_life_time_selector = 2
    ∧ (uct_cm_ep_fill_path_rec ep iface).2.rate = IBV_RATE_MAX
    ∧ (uct_cm_ep_fill_path_rec ep iface).2.flow_label = 0
    ∧ (uct_cm_ep_fill_path_rec ep iface).2.traffic_class = 0
    ∧ (uct_cm_ep_fill_path_rec ep iface).2.hop_limit = 0
    ∧ (uct_cm_ep_fill_path_rec ep iface).2.preference = 0 :=
  ⟨rfl, rfl, rfl, by decide, rfl, rfl, rfl, rfl, rfl, rfl, rfl, rfl, rfl⟩

/-! ## C9 — flush status passes through the interface-level check -/

/-- C9: `uct_cm_ep_flush` returns exactly the status of the interface-level
flush check — `UCS_OK` iff no outstanding transactions remain at the
instant checked, `UCS_INPROGRESS` otherwise — and the statistics update it
performs afterwards alters neither that status nor the interface state. -/
theorem C9_flush_passthrough (iface : uct_cm_iface) (stats : uct_ep_stats) :
    (uct_cm_ep_flush iface stats).1 = uct_cm_iface_flush_do iface
    ∧ (uct_cm_ep_flush iface stats).2.1 = iface
    ∧ ((uct_cm_ep_flush iface stats).1 = ucs_status_t.UCS_OK
        ↔ iface.num_outstanding = 0)
    ∧ ((uct_cm_ep_flush iface stats).1 = ucs_status_t.UCS_INPROGRESS
        ↔ iface.num_outstanding ≠ 0) := by
  unfold uct_cm_ep_flush uct_cm_iface_flush_do
  by_cases h : iface.num_outstanding = 0 <;> simp [h]

/-! ## C8 — preservation of the admission invariant -/

/-- C8: starting from any interface state with
`num_outstanding ≤ max_outstanding` (the lower bound 0 is inherent), each
operation of the core — `uct_cm_ep_am_bcopy` (which increments the counter
only after checking `num_outstanding < max_outstanding`),
`uct_cm_ep_pending_add`, `uct_cm_ep_pending_purge` and `uct_cm_ep_flush` —
leaves the invariant holding. -/
theorem C8_admission_invariant {σ : Type} (env : CmEnv σ)
    (iface : uct_cm_iface) (ep : uct_cm_ep) (am_id : Nat) (caller : σ)
    (req : uct_pending_req) (stats : uct_ep_stats)
    (h : AdmissionInv iface) :
    AdmissionInv (uct_cm_ep_am_bcopy env iface ep am_id caller).iface
    ∧ AdmissionInv (uct_cm_ep_pending_add iface ep req).2
    ∧ AdmissionInv (uct_cm_ep_pending_purge iface ep).1
    ∧ AdmissionInv (uct_cm_ep_flush iface stats).2.1 := by
  refine ⟨?_, ?_, ?_, ?_⟩
  · rcases am_bcopy_cases env iface ep am_id caller with
      ⟨_, he⟩ | ⟨_, _, he⟩ | ⟨_, _, _, he⟩ | ⟨id, _, _, _, _, he⟩ |
      ⟨id, hlt, _, _, _, he⟩
    all_goals rw [he]
    · exact h
    · exact h
    · exact h
    · exact h
    · exact hlt
  · unfold uct_cm_ep_pending_add
    split
    · exact h
    · exact h
  · exact h
  · unfold uct_cm_ep_flush uct_cm_iface_flush_do
    split
    · exact h
    · exact h

/-- C8 witness: the invariant holds at the concrete capacity-1 state and
is preserved by each of the four operations applied there. -/
theorem C8_admission_invariant_witness :
    AdmissionInv (uct_cm_ep_am_bcopy envA ifaceA epA 3 0).iface
    ∧ AdmissionInv (uct_cm_ep_pending_add ifaceA epA reqA).2
    ∧ AdmissionInv (uct_cm_ep_pending_purge ifaceA epA).1
    ∧ AdmissionInv (uct_cm_ep_flush ifaceA statsA).2.1 :=
  C8_admission_invariant envA ifaceA epA 3 0 reqA statsA (by decide)

/-! ## C7 — failure paths roll back exactly what was acquired -/

/-- C7: whenever `uct_cm_ep_am_bcopy` returns an error, the interface state
(counter, outstanding table, pending queue) is exactly as before the call —
no handle is registered without a successful submission; every staging
buffer allocated during the run was freed, every transaction handle
created was destroyed; the lock was entered exactly once, left exactly
once, and the release is the final action before returning; and on the
two early failures (`NO_RESOURCE`, `NO_MEMORY`) nothing was acquired at
all (no allocation, no creation, no submission). -/
theorem C7_failure_rollback {σ : Type} (env : CmEnv σ)
    (iface : uct_cm_iface) (ep : uct_cm_ep) (am_id : Nat) (caller : σ)
    (s : ucs_status_t)
    (h : (uct_cm_ep_am_bcopy env iface ep am_id caller).result
          = Except.error s) :
    (uct_cm_ep_am_bcopy env iface ep am_id caller).iface = iface
    ∧ (uct_cm_ep_am_bcopy env iface ep am_id caller).events.count
        CmEvent.malloc_buf
      = (uct_cm_ep_am_bcopy env iface ep am_id caller).events.count
        CmEvent.free_buf
    ∧ (∀ id : Nat,
        (uct_cm_ep_am_bcopy env iface ep am_id caller).events.count
          (CmEvent.create_id id)
        = (uct_cm_ep_am_bcopy env iface ep am_id caller).events.count
          (CmEvent.destroy_id id))
    ∧ (uct_cm_ep_am_bcopy env iface ep am_id caller).events.count
        CmEvent.enter = 1
    ∧ (uct_cm_ep_am_bcopy env iface ep am_id caller).events.count
        CmEvent.leave = 1
    ∧ (uct_cm_ep_am_bcopy env iface ep am_id caller).events.getLast?
      = some CmEvent.leave
    ∧ ((s = ucs_status_t.UCS_ERR_NO_RESOURCE ∨ s = ucs_status_t.UCS_ERR_NO_MEMORY) →
        (uct_cm_ep_am_bcopy env iface ep am_id caller).events
          = [CmEvent.enter, CmEvent.leave]) := by
  rcases am_bcopy_cases env iface ep am_id caller with
    ⟨_, he⟩ | ⟨_, _, he⟩ | ⟨_, _, _, he⟩ | ⟨id, _, _, _, _, he⟩ |
    ⟨id, _, _, _, _, he⟩
  · rw [he]
    exact ⟨rfl, rfl, fun i => rfl, rfl, rfl, rfl, fun _ => rfl⟩
  · rw [he]
    exact ⟨rfl, rfl, fun i => rfl, rfl, rfl, rfl, fun _ => rfl⟩
  · rw [he]
    refine ⟨rfl, rfl, fun i => rfl, rfl, rfl, rfl, fun hs => ?_⟩
    rw [he] at h
    simp at h
    rcases hs with hs | hs <;> simp [h.symm] at hs
  · rw [he]
    refine ⟨rfl, ?_, fun i => ?_, ?_, ?_, rfl, fun hs => ?_⟩
    · simp [List.count_cons]
    · simp [List.count_cons]
    · simp [List.count_cons]
    · simp [List.count_cons]
    · rw [he] at h
      simp at h
      rcases hs with hs | hs <;> simp [h.symm] at hs
  · rw [he] at h
    exact absurd h (by simp)

/-- C7 witness: the concrete submission-failure run (`ib_cm_send_sidr_req`
fails) leaves the interface exactly as it was, balances the staging-buffer
allocation with its free and the creation of handle 9 with its
destruction, and its final action is releasing the lock. -/
theorem C7_failure_rollback_witness :
    (uct_cm_ep_am_bcopy envSendFail ifaceA epA 3 0).iface = ifaceA
    ∧ (uct_cm_ep_am_bcopy envSendFail ifaceA epA 3 0).events.count
        CmEvent.malloc_buf
      = (uct_cm_ep_am_bcopy envSendFail ifaceA epA 3 0).events.count
        CmEvent.free_buf
    ∧ (uct_cm_ep_am_bcopy envSendFail ifaceA epA 3 0).events.count
        (CmEvent.create_id 9)
      = (uct_cm_ep_am_bcopy envSendFail ifaceA epA 3 0).events.count
        (CmEvent.destroy_id 9)
    ∧ (uct_cm_ep_am_bcopy envSendFail ifaceA epA 3 0).events.getLast?
      = some CmEvent.leave :=
  ⟨(C7_failure_rollback envSendFail ifaceA epA 3 0
      ucs_status_t.UCS_ERR_IO_ERROR (by rfl)).1,
   (C7_failure_rollback envSendFail ifaceA epA 3 0
      ucs_status_t.UCS_ERR_IO_ERROR (by rfl)).2.1,
   (C7_failure_rollback envSendFail ifaceA epA 3 0
      ucs_status_t.UCS_ERR_IO_ERROR (by rfl)).2.2.1 9,
   (C7_failure_rollback envSendFail ifaceA epA 3 0
      ucs_status_t.UCS_ERR_IO_ERROR (by rfl)).2.2.2.2.2.1⟩

/-! ## C10 — the pack callback is invoked exactly once, first -/

/-- C10: whenever the admission check and the staging-buffer allocation
succeed, the caller's pack callback runs exactly once, writing its payload
just past the frame header (in every submitted request the bytes after the
`sizeof_uct_cm_hdr`-byte header are exactly the callback's payload), it
runs before any transaction creation or submission, and its side effect on
the caller's state persists in the call's outcome even when the send
subsequently fails. -/
theorem C10_pack_called_once {σ : Type} (env : CmEnv σ)
    (iface : uct_cm_iface) (ep : uct_cm_ep) (am_id : Nat) (caller : σ)
    (h1 : iface.num_outstanding < iface.max_outstanding)
    (h2 : env.malloc_ok = true) :
    (uct_cm_ep_am_bcopy env iface ep am_id caller).caller
      = (env.pack_cb caller).1
    ∧ (uct_cm_ep_am_bcopy env iface ep am_id caller).events.count
        CmEvent.pack_called = 1
    ∧ (∃ post, (uct_cm_ep_am_bcopy env iface ep am_id caller).events
          = [CmEvent.enter, CmEvent.malloc_buf] ++ CmEvent.pack_called :: post)
    ∧ ((uct_cm_ep_am_bcopy env iface ep am_id caller).submitted.map
        (fun q => q.private_data.drop sizeof_uct_cm_hdr)).getD
          (env.pack_cb caller).2
      = (env.pack_cb caller).2 := by
  rcases am_bcopy_cases env iface ep am_id caller with
    ⟨hge, _⟩ | ⟨_, hm, he⟩ | ⟨_, _, _, he⟩ | ⟨id, _, _, _, _, he⟩ |
    ⟨id, _, _, _, _, he⟩
  · exact absurd hge (not_le.mpr h1)
  · rw [hm] at h2; exact absurd h2 (by simp)
  · rw [he]
    exact ⟨rfl, rfl, ⟨[CmEvent.free_buf, CmEvent.leave], rfl⟩, rfl⟩
  · rw [he]
    refine ⟨rfl, by simp [List.count_cons], ?_, ?_⟩
    · exact ⟨[CmEvent.create_id id,
              CmEvent.send_sidr (sizeof_uct_cm_hdr + (env.pack_cb caller).2.length),
              CmEvent.destroy_id id, CmEvent.free_buf, CmEvent.leave], rfl⟩
    · simp [built_req, frame_bytes, sizeof_uct_cm_hdr]
  · rw [he]
    refine ⟨rfl, by simp [List.count_cons], ?_, ?_⟩
    · exact ⟨[CmEvent.create_id id,
              CmEvent.send_sidr (sizeof_uct_cm_hdr + (env.pack_cb caller).2.length),
              CmEvent.leave, CmEvent.free_buf], rfl⟩
    · simp [built_req, frame_bytes, sizeof_uct_cm_hdr]

/-- C10 witness: in the concrete submission-failure run the pack callback's
side effect (caller state 0 becomes 1) survives the `IO_ERROR` outcome, the
callback event occurs exactly once, and the frame bytes after the header
are the callback's payload. -/
theorem C10_pack_called_once_witness :
    (uct_cm_ep_am_bcopy envSendFail ifaceA epA 3 0).caller
      = (envSendFail.pack_cb 0).1
    ∧ (uct_cm_ep_am_bcopy envSendFail ifaceA epA 3 0).events.count
        CmEvent.pack_called = 1
    ∧ ((uct_cm_ep_am_bcopy envSendFail ifaceA epA 3 0).submitted.map
        (fun q => q.private_data.drop sizeof_uct_cm_hdr)).getD
          (envSendFail.pack_cb 0).2
      = (envSendFail.pack_cb 0).2 :=
  ⟨(C10_pack_called_once envSendFail ifaceA epA 3 0 (by decide) (by rfl)).1,
   (C10_pack_called_once envSendFail ifaceA epA 3 0 (by decide) (by rfl)).2.1,
   (C10_pack_called_once envSendFail ifaceA epA 3 0 (by decide) (by rfl)).2.2.2⟩

/-! ## C1 — framing and the (absent) capacity check

`uct_cm_ep_am_bcopy` computes `total_len = sizeof(*hdr) + payload_len` and
passes it to `ib_cm_send_sidr_req` as `private_data_len`, but at no point
compares it against `IB_CM_SIDR_REQ_PRIVATE_DATA_SIZE`: a pack callback
reporting a payload that makes the total exceed the capacity is not
rejected — the oversized length is handed to the native submit call. -/

/-- An environment whose pack callback reports a 220-byte payload, making
`total_len = 222 > IB_CM_SIDR_REQ_PRIVATE_DATA_SIZE = 216`; all external
calls succeed. -/
def envOversize : CmEnv Unit :=
  { malloc_ok := true
  , pack_cb := fun s => (s, List.replicate 220 1)
  , create_id_result := some 5
  , send_ok := true }

set_option maxRecDepth 4000 in
/-- C1 counterexample: with a 220-byte payload (`total_len = 222`, which
exceeds the 216-byte private-data capacity) the send is not rejected —
the SIDR request is submitted carrying the oversized length 222 and the
call returns success — falsifying the claim that an oversized frame is
rejected before the native submit call. -/
theorem C1_oversize_submitted_counterexample :
    (uct_cm_ep_am_bcopy envOversize ifaceA epA 3 ()).result = Except.ok 220
    ∧ ((uct_cm_ep_am_bcopy envOversize ifaceA epA 3 ()).submitted.map
        (fun q => q.private_data_len)) = some 222
    ∧ (uct_cm_ep_am_bcopy envOversize ifaceA epA 3 ()).events.count
        (CmEvent.send_sidr 222) = 1
    ∧ IB_CM_SIDR_REQ_PRIVATE_DATA_SIZE < 222 :=
  ⟨by rfl, by rfl, by rfl, by decide⟩

/-- C1 amended: whenever the admission check, the staging-buffer allocation
and transaction creation succeed, the frame handed to the native submit
call consists of exactly `sizeof_uct_cm_hdr + payload_length` bytes — the
header (am_id byte, length byte) followed by the payload the pack callback
wrote — and that total is passed as the private-data length;
no capacity check against `IB_CM_SIDR_REQ_PRIVATE_DATA_SIZE` is performed:
the submission call receives the frame unconditionally, oversized or not
(the bound is left to the trusted pack callback). -/
theorem C1_framing_no_capacity_check {σ : Type} (env : CmEnv σ)
    (iface : uct_cm_iface) (ep : uct_cm_ep) (am_id : Nat) (caller : σ)
    (id : Nat)
    (h1 : iface.num_outstanding < iface.max_outstanding)
    (h2 : env.malloc_ok = true)
    (h3 : env.create_id_result = some id) :
    ((uct_cm_ep_am_bcopy env iface ep am_id caller).submitted.map
        (fun q => q.private_data_len))
      = some (sizeof_uct_cm_hdr + (env.pack_cb caller).2.length)
    ∧ ((uct_cm_ep_am_bcopy env iface ep am_id caller).submitted.map
        (fun q => q.private_data.length))
      = some (sizeof_uct_cm_hdr + (env.pack_cb caller).2.length)
    ∧ ((uct_cm_ep_am_bcopy env iface ep am_id caller).submitted.map
        (fun q => q.private_data))
      = some ([am_id % 256, (env.pack_cb caller).2.length % 256]
              ++ (env.pack_cb caller).2)
    ∧ (uct_cm_ep_am_bcopy env iface ep am_id caller).events.count
        (CmEvent.send_sidr
          (sizeof_uct_cm_hdr + (env.pack_cb caller).2.length)) = 1 := by
  rcases am_bcopy_cases env iface ep am_id caller with
    ⟨hge, _⟩ | ⟨_, hm, _⟩ | ⟨_, _, hc, _⟩ | ⟨i, _, _, _, _, he⟩ |
    ⟨i, _, _, _, _, he⟩
  · exact absurd hge (not_le.mpr h1)
  · rw [hm] at h2; exact absurd h2 (by simp)
  · rw [hc] at h3; exact absurd h3 (by simp)
  · rw [he]
    refine ⟨by simp [built_req],
      by simp only [built_req, frame_bytes, sizeof_uct_cm_hdr]; simp; omega,
      by simp [built_req, frame_bytes], ?_⟩
    simp [List.count_cons]
  · rw [he]
    refine ⟨by simp [built_req],
      by simp only [built_req, frame_bytes, sizeof_uct_cm_hdr]; simp; omega,
      by simp [built_req, frame_bytes], ?_⟩
    simp [List.count_cons]

/-- C1 amended witness: the concrete 32-byte-payload send submits a frame
of exactly 34 = 2 + 32 bytes, with that total as the private-data
length. -/
theorem C1_framing_no_capacity_check_witness :
    ((uct_cm_ep_am_bcopy envA ifaceA epA 3 0).submitted.map
        (fun q => q.private_data_len)) = some 34
    ∧ ((uct_cm_ep_am_bcopy envA ifaceA epA 3 0).submitted.map
        (fun q => q.private_data.length)) = some 34
    ∧ (uct_cm_ep_am_bcopy envA ifaceA epA 3 0).events.count
        (CmEvent.send_sidr 34) = 1 :=
  ⟨(C1_framing_no_capacity_check envA ifaceA epA 3 0 42
      (by decide) (by rfl) (by rfl)).1,
   (C1_framing_no_capacity_check envA ifaceA epA 3 0 42
      (by decide) (by rfl) (by rfl)).2.1,
   (C1_framing_no_capacity_check envA ifaceA epA 3 0 42
      (by decide) (by rfl) (by rfl)).2.2.2⟩

end UcxCm
